import Mathlib

/-!
Shallow embedding of the vinted-gangas execution engine: the filter chain
(app/utils/filter_manager.py), the scrape pipeline (app/scraper/main_scraper.py),
the retrying HTTP client (app/scraper/vinted_client.py), the notification
fan-out (app/notifications/notification_manager.py) and the scheduler error
accounting (app/scheduler/task_manager.py).  Timestamps are integer hours,
prices are rationals, Python dicts keyed by search id are functions
Nat -> Option Int, and exceptions are Except values.
-/

namespace VG

/-- Python `s.lower()`. -/
def pyLower (s : String) : String := s.map Char.toLower

/-- Python `needle in hay` on strings (substring containment). -/
def pyIn (needle hay : String) : Bool := decide (needle.data <:+: hay.data)

/-- Python truthiness of an `Optional[str]`: `None` and the empty string are falsy. -/
def pyTruthyStr : Option String → Bool
  | none => false
  | some s => s ≠ ""

/-- Python truthiness of an optional list: `None` and `[]` are falsy. -/
def pyTruthyList : Option (List String) → Bool
  | none => false
  | some l => l ≠ []

/-- A candidate item as produced by the client (schema `ProductCreate`). -/
structure ProductCreate where
  vinted_id : String
  title : String
  description : Option String
  price : ℚ
  seller_vinted_id : Option String
  seller_name : Option String
  seller_country : Option String
deriving Repr, DecidableEq

/-- The cached global filter configuration held by `FilterManager`
(`_global_min_price`, `_global_banned_words`, `_global_banned_sellers`).
The word and seller lists are stored already stripped and lower-cased by
`_load_config`. -/
structure FilterSettings where
  global_min_price : ℚ
  global_banned_words : List String
  global_banned_sellers : List String
deriving Repr, DecidableEq

/-- The per-search filter columns of a `Search` row (JSON list columns, so the
`isinstance(..., list)` branches of `filter_product` apply). -/
structure Search where
  id : Nat
  banned_words : Option (List String)
  banned_seller_ids : Option (List String)
  allowed_countries : Option (List String)
deriving Repr, DecidableEq

/-- A rejection reason returned by `FilterManager.filter_product`.  The source
builds a formatted message per rule; the constructor and its payload carry
exactly the data interpolated into that message, so distinct messages map to
distinct values. -/
inductive RejectReason where
  | priceBelowMin (price minPrice : ℚ)
  | globalBannedWord (word : String)
  | globalBannedSeller (sellerName : String)
  | searchBannedWord (word : String)
  | searchBannedSeller (sellerName : String)
  | countryNotAllowed (country : String)
deriving Repr, DecidableEq

/-- The normalized text rule 2 and rule 4 scan:
`f"{product.title} {product.description or ''}".lower()`. -/
def textToCheck (p : ProductCreate) : String :=
  pyLower (p.title ++ " " ++ p.description.getD "")

/-- `FilterManager.filter_product`, translated clause by clause from the
source: six early-return checks in source order, then `(True, None)`. -/
def filter_product (fm : FilterSettings) (p : ProductCreate) (search : Option Search) :
    Bool × Option RejectReason :=
  -- Filtro 1: Precio mínimo global
  if fm.global_min_price > 0 ∧ p.price < fm.global_min_price then
    (false, some (.priceBelowMin p.price fm.global_min_price))
  else
    -- Filtro 2: Palabras prohibidas globales
    match fm.global_banned_words.find? (fun w => pyIn w (textToCheck p)) with
    | some w => (false, some (.globalBannedWord w))
    | none =>
      -- Filtro 3: Vendedores bloqueados globales
      match (if fm.global_banned_sellers ≠ [] ∧ pyTruthyStr p.seller_name then
          fm.global_banned_sellers.find? (fun b =>
            pyIn b (pyLower (p.seller_name.getD "")) ||
              b == (if pyTruthyStr p.seller_vinted_id then
                     pyLower (p.seller_vinted_id.getD "") else ""))
        else none) with
      | some _ => (false, some (.globalBannedSeller (p.seller_name.getD "")))
      | none =>
        match search with
        | none => (true, none)
        | some s =>
          -- Filtro 4: Palabras prohibidas de la búsqueda
          match (if pyTruthyList s.banned_words then
              (s.banned_words.getD []).find? (fun w => pyIn w (textToCheck p))
            else none) with
          | some w => (false, some (.searchBannedWord w))
          | none =>
            -- Filtro 5: Vendedores bloqueados de la búsqueda
            if pyTruthyList s.banned_seller_ids ∧ pyTruthyStr p.seller_vinted_id ∧
                (s.banned_seller_ids.getD []).contains (p.seller_vinted_id.getD "") then
              (false, some (.searchBannedSeller (p.seller_name.getD "")))
            else
              -- Filtro 6: Países permitidos
              if pyTruthyList s.allowed_countries ∧ pyTruthyStr p.seller_country ∧
                  ((s.allowed_countries.getD []) ≠ [] ∧
                    ¬ (s.allowed_countries.getD []).contains (p.seller_country.getD "")) then
                (false, some (.countryNotAllowed (p.seller_country.getD "")))
              else
                (true, none)

/-! Spec-shaped view of the filter chain: each of the six rules as a
standalone failure check, and the verdict as "the first failing rule in the
fixed order determines the reason". -/

/-- Rule 1 (spec): global minimum price. -/
def rule1 (fm : FilterSettings) (p : ProductCreate) : Option RejectReason :=
  if fm.global_min_price > 0 ∧ p.price < fm.global_min_price then
    some (.priceBelowMin p.price fm.global_min_price)
  else none

/-- Rule 2 (spec): global banned words on the lower-cased title+description. -/
def rule2 (fm : FilterSettings) (p : ProductCreate) : Option RejectReason :=
  (fm.global_banned_words.find? (fun w => pyIn w (textToCheck p))).map
    (fun w => .globalBannedWord w)

/-- Rule 3 (spec): global banned sellers, matched against the display name or
the external id (only checked when the item has a seller name). -/
def rule3 (fm : FilterSettings) (p : ProductCreate) : Option RejectReason :=
  (if fm.global_banned_sellers ≠ [] ∧ pyTruthyStr p.seller_name then
      fm.global_banned_sellers.find? (fun b =>
        pyIn b (pyLower (p.seller_name.getD "")) ||
          b == (if pyTruthyStr p.seller_vinted_id then
                 pyLower (p.seller_vinted_id.getD "") else ""))
    else none).map
    (fun _ => .globalBannedSeller (p.seller_name.getD ""))

/-- Rule 4 (spec): per-search banned words, same normalization as rule 2. -/
def rule4 (p : ProductCreate) (search : Option Search) : Option RejectReason :=
  match search with
  | none => none
  | some s =>
    ((if pyTruthyList s.banned_words then
        (s.banned_words.getD []).find? (fun w => pyIn w (textToCheck p))
      else none)).map
      (fun w => .searchBannedWord w)

/-- Rule 5 (spec): per-search banned seller identifiers. -/
def rule5 (p : ProductCreate) (search : Option Search) : Option RejectReason :=
  match search with
  | none => none
  | some s =>
    if pyTruthyList s.banned_seller_ids ∧ pyTruthyStr p.seller_vinted_id ∧
        (s.banned_seller_ids.getD []).contains (p.seller_vinted_id.getD "") then
      some (.searchBannedSeller (p.seller_name.getD ""))
    else none

/-- Rule 6 (spec): per-search allowed-country whitelist, only enforced when
both the list and the seller country of the item are present. -/
def rule6 (p : ProductCreate) (search : Option Search) : Option RejectReason :=
  match search with
  | none => none
  | some s =>
    if pyTruthyList s.allowed_countries ∧ pyTruthyStr p.seller_country ∧
        ((s.allowed_countries.getD []) ≠ [] ∧
          ¬ (s.allowed_countries.getD []).contains (p.seller_country.getD "")) then
      some (.countryNotAllowed (p.seller_country.getD ""))
    else none

/-- The six rules in the fixed order stated by the spec. -/
def ruleSequence (fm : FilterSettings) (p : ProductCreate) (search : Option Search) :
    List (Option RejectReason) :=
  [rule1 fm p, rule2 fm p, rule3 fm p, rule4 p search, rule5 p search, rule6 p search]

/-- Spec-shaped verdict: the first failing rule of the ordered sequence
determines the rejection reason; if no rule fails the item is accepted with
no reason. -/
def filter_product_spec (fm : FilterSettings) (p : ProductCreate) (search : Option Search) :
    Bool × Option RejectReason :=
  match (ruleSequence fm p search).findSome? id with
  | some r => (false, some r)
  | none => (true, none)

/-- The statistics dict returned by `FilterManager.filter_products`.  The
`rejection_reasons` histogram is a Python dict in insertion order; its key
is the reason value returned by `filter_product` (an `Option`, though on the
rejection path it is always `some`). -/
structure FilterStats where
  total : Nat
  accepted : Nat
  rejected : Nat
  rejection_reasons : List (Option RejectReason × Nat)
deriving Repr, DecidableEq

/-- `rejection_reasons[reason] = rejection_reasons.get(reason, 0) + 1` on a
dict kept in insertion order. -/
def histAdd (m : List (Option RejectReason × Nat)) (k : Option RejectReason) :
    List (Option RejectReason × Nat) :=
  if m.any (fun e => e.1 = k) then
    m.map (fun e => if e.1 = k then (e.1, e.2 + 1) else e)
  else m ++ [(k, 1)]

/-- One iteration of the loop body of `FilterManager.filter_products`:
append to `filtered` or to `rejected` and count the reason. -/
def filterStep (fm : FilterSettings) (search : Option Search)
    (acc : List ProductCreate × List ProductCreate × List (Option RejectReason × Nat))
    (p : ProductCreate) :
    List ProductCreate × List ProductCreate × List (Option RejectReason × Nat) :=
  let pr := filter_product fm p search
  if pr.1 then (acc.1 ++ [p], acc.2.1, acc.2.2)
  else (acc.1, acc.2.1 ++ [p], histAdd acc.2.2 pr.2)

/-- `FilterManager.filter_products`: loop over the products, then assemble
the stats dict. -/
def filter_products (fm : FilterSettings) (products : List ProductCreate)
    (search : Option Search) : List ProductCreate × FilterStats :=
  let r := products.foldl (filterStep fm search) ([], [], [])
  (r.1, { total := products.length, accepted := r.1.length,
          rejected := r.2.1.length, rejection_reasons := r.2.2 })

/-! HTTP client (`VintedRequester` in app/scraper/vinted_client.py).  An
attempt oracle maps the 1-based attempt number to its outcome: a transport
exception or a response.  Identity rotation, cookie refresh and proxy
selection mutate only session state, which the oracle abstracts over. -/

/-- An HTTP response as far as the client inspects it. -/
structure HttpResponse where
  status : Nat
  body : String
deriving Repr, DecidableEq

/-- `VintedRequester.MAX_RETRIES`. -/
def MAX_RETRIES : Nat := 3

/-- The `while tried < self.MAX_RETRIES` loop of `VintedRequester.get`,
with `fuel = MAX_RETRIES - tried` as the structural measure.  Returns the
outcome together with the number of attempts consumed. -/
def vintedGetGo (attempts : Nat → Except String HttpResponse) :
    Nat → Nat → Except String HttpResponse × Nat
  | tried, 0 => (.error "Failed to get valid response after 3 attempts", tried)
  | tried, fuel + 1 =>
    let t := tried + 1
    match attempts t with
    | .ok r =>
      if (r.status = 401 ∨ r.status = 403 ∨ r.status = 404) ∧ t < MAX_RETRIES then
        vintedGetGo attempts t fuel
      else if r.status = 200 then (.ok r, t)
      else if t = MAX_RETRIES then (.ok r, t)
      else vintedGetGo attempts t fuel
    | .error e =>
      if t < MAX_RETRIES then vintedGetGo attempts t fuel
      else (.error ("Failed after 3 attempts: " ++ e), t)

/-- `VintedRequester.get`: run the retry loop from `tried = 0`. -/
def vintedGet (attempts : Nat → Except String HttpResponse) :
    Except String HttpResponse × Nat :=
  vintedGetGo attempts 0 MAX_RETRIES

/-- `VintedRequester.scrape_catalog`: issue the catalog GET; on a 200 map the
JSON items (the mapping loop is abstracted by `parse`), on any other status
return the empty product list; a raised transport error propagates. -/
def scrape_catalog (attempts : Nat → Except String HttpResponse)
    (parse : HttpResponse → List ProductCreate) : Except String (List ProductCreate) :=
  match (vintedGet attempts).1 with
  | .error e => .error e
  | .ok r => if r.status = 200 then .ok (parse r) else .ok []

/-! Seller enrichment (step 3 of `VintedScraper.scrape_and_save`). -/

/-- The fetched seller payload (schema `SellerCreate`): every field of
`SellerBase`.  Timestamps are integer hours. -/
structure SellerCreate where
  vinted_id : String
  login : String
  profile_url : Option String
  country_code : Option String
  country_title : Option String
  city : Option String
  item_count : Int
  total_items_count : Int
  followers_count : Int
  following_count : Int
  positive_feedback_count : Int
  negative_feedback_count : Int
  neutral_feedback_count : Int
  feedback_count : Int
  feedback_reputation : ℚ
  email_verified : Bool
  facebook_verified : Bool
  google_verified : Bool
  is_business : Bool
  is_banned : Bool
  last_logged_on : Option Int
  avg_response_time : Option Int
  photo_url : Option String
  about : Option String
deriving Repr, DecidableEq

/-- A `Seller` row.  The update loop of the scraper sets every
`SellerCreate` field (the keys of `seller_data.model_dump()`, none of which
is `id` or `first_seen_at`) plus `last_updated_at`, so the row splits into
the fetched payload and the bookkeeping columns it never copies. -/
structure Seller where
  id : Nat
  data : SellerCreate
  ban_date : Option Int
  first_seen_at : Int
  last_updated_at : Option Int
deriving Repr, DecidableEq

/-- `UPDATE_SELLER_AFTER_DAYS` (freshness cutoff policy constant). -/
def UPDATE_SELLER_AFTER_DAYS : Int := 1

/-- `update_threshold = datetime.utcnow() - timedelta(days=UPDATE_SELLER_AFTER_DAYS)`
in integer hours. -/
def updateThreshold (now : Int) : Int := now - 24 * UPDATE_SELLER_AFTER_DAYS

/-- Apply `f` to the first list entry whose seller external id is `svid`
(the row the ORM query would have returned and mutated). -/
def replaceFirstSeller (f : Seller → Seller) (svid : String) :
    List Seller → List Seller
  | [] => []
  | s :: rest =>
    if s.data.vinted_id = svid then f s :: rest
    else s :: replaceFirstSeller f svid rest

/-- Accumulated state of the seller loop. -/
structure SellerLoopState where
  sellers : List Seller
  sellers_new : Nat
  sellers_updated : Nat
  nextId : Nat
  fetchedIds : List String
deriving Repr, DecidableEq

/-- One iteration of the seller loop of `scrape_and_save`: look the seller up
by external id; skip it when its `last_updated_at` is newer than the
freshness threshold; otherwise fetch it (`fetchedIds` records the
`get_seller_info` calls; `none` covers both an unavailable seller and a
caught per-seller exception, which the loop `continue`s over) and either
overwrite the existing row (all fetched fields plus `last_updated_at`,
keeping `id` and `first_seen_at`) or insert a new row with fresh defaults. -/
def process_seller (now : Int) (fetchSeller : String → Option SellerCreate)
    (st : SellerLoopState) (svid : String) : SellerLoopState :=
  match st.sellers.find? (fun s => s.data.vinted_id = svid) with
  | some existing =>
    if (match existing.last_updated_at with
        | some t => decide (t > updateThreshold now)
        | none => false) then
      st
    else
      match fetchSeller svid with
      | none => { st with fetchedIds := st.fetchedIds ++ [svid] }
      | some d =>
        { st with
          sellers := replaceFirstSeller
            (fun s => { s with data := d, last_updated_at := some now }) svid st.sellers,
          sellers_updated := st.sellers_updated + 1,
          fetchedIds := st.fetchedIds ++ [svid] }
  | none =>
    match fetchSeller svid with
    | none => { st with fetchedIds := st.fetchedIds ++ [svid] }
    | some d =>
      { st with
        sellers := st.sellers ++
          [{ id := st.nextId, data := d, ban_date := none,
             first_seen_at := now, last_updated_at := some now }],
        sellers_new := st.sellers_new + 1,
        nextId := st.nextId + 1,
        fetchedIds := st.fetchedIds ++ [svid] }

/-- The seller loop over the distinct seller ids of the accepted items. -/
def process_sellers (now : Int) (fetchSeller : String → Option SellerCreate)
    (st : SellerLoopState) (ids : List String) : SellerLoopState :=
  ids.foldl (process_seller now fetchSeller) st

/-- `list(set(...))` over the accepted items, keeping first occurrences. -/
def dedupFirst (l : List String) : List String :=
  l.foldl (fun acc s => if acc.contains s then acc else acc ++ [s]) []

/-! Product persistence (step 4 of `scrape_and_save`). -/

/-- A `Product` row: the candidate payload plus `search_id` and the resolved
internal `seller_id`. -/
structure StoredProduct where
  data : ProductCreate
  search_id : Nat
  seller_id : Option Nat
deriving Repr, DecidableEq

/-- `seller = db.query(Seller).filter(Seller.vinted_id == product_data.seller_vinted_id).first()`
followed by `seller.id if seller else None` (a `None` external id matches no
row of the non-nullable column). -/
def resolveSellerId (sellers : List Seller) (p : ProductCreate) : Option Nat :=
  (match p.seller_vinted_id with
   | none => (none : Option Seller)
   | some sv => sellers.find? (fun s => s.data.vinted_id = sv)).map
    (fun s : Seller => s.id)

/-- The save loop of `scrape_and_save`.  The session runs with
`autoflush=False`, so every existence query inside the loop sees only the
already-committed `store`; the loop accumulates pending inserts and counts
them.  Returns `(pending inserts, products_new)`. -/
def save_products (store : List StoredProduct) (sellers : List Seller)
    (searchId : Nat) (products : List ProductCreate) : List StoredProduct × Nat :=
  products.foldl (fun (acc : List StoredProduct × Nat) p =>
    if (store.find? (fun sp => sp.data.vinted_id = p.vinted_id)).isSome then acc
    else
      (acc.1 ++ [{ data := p, search_id := searchId,
                   seller_id := resolveSellerId sellers p }],
       acc.2 + 1))
    ([], 0)

/-- The save loop followed by its `db.commit()`: the committed store and the
new-items count. -/
def run_save (store : List StoredProduct) (sellers : List Seller)
    (searchId : Nat) (products : List ProductCreate) : List StoredProduct × Nat :=
  let r := save_products store sellers searchId products
  (store ++ r.1, r.2)

/-! Notification fan-out (`NotificationManager.notify_product`). -/

/-- The three channel kinds the manager can have configured. -/
inductive Channel where
  | telegram
  | discord
  | webhook
deriving Repr, DecidableEq

/-- A channel attempt outcome: the boolean the notifier returned, or the
exception it raised. -/
def attemptValue : Except String Bool → Bool
  | .ok b => b
  | .error _ => false

/-- `NotificationManager.notify_product`: try each configured channel in the
source's fixed order inside its own try/except; an exception records `False`
for that channel and the next block still runs.  `cfg c = none` means the
channel is not configured (its notifier is `None`).  Returns the per-channel
result map (a dict in insertion order) and the delivered flag
`any(results.values())` that marks the product notified. -/
def notify_product (cfg : Channel → Option (Except String Bool)) :
    List (Channel × Bool) × Bool :=
  let results : List (Channel × Bool) := []
  let results := match cfg .telegram with
    | none => results
    | some out => results ++ [(Channel.telegram, attemptValue out)]
  let results := match cfg .discord with
    | none => results
    | some out => results ++ [(Channel.discord, attemptValue out)]
  let results := match cfg .webhook with
    | none => results
    | some out => results ++ [(Channel.webhook, attemptValue out)]
  (results, results.any (fun e => e.2))

/-! Scrape pipeline orchestrator (`VintedScraper.scrape_and_save`). -/

/-- The terminal state of a `ScrapingLog` row as `_finish_log` writes it. -/
structure ScrapingLogRecord where
  status : String
  error_message : Option String
  products_found : Nat
  products_filtered : Nat
  products_notified : Nat
  sellers_new : Nat
  sellers_updated : Nat
deriving Repr, DecidableEq

/-- The result dict `scrape_and_save` returns (durations elided; the `error`
key is present exactly on `_build_error_result`). -/
structure ScrapeResults where
  products_found : Nat
  products_new : Nat
  products_filtered : Nat
  products_notified : Nat
  sellers_new : Nat
  sellers_updated : Nat
  error : Option String
deriving Repr, DecidableEq

/-- The persistent store as the pipeline sees it. -/
structure Db where
  products : List StoredProduct
  sellers : List Seller
deriving Repr, DecidableEq

/-- The run environment of one `scrape_and_save` call: the outcome of the
catalog fetch, the config cap, the clock, the seller fetcher, the next free
seller primary key, whether the products commit raises, and the notification
phase outcome (`notifyResult` is the `success` count of `notify_products`,
or the exception the caught notification block raised). -/
structure ScrapeEnv where
  fetchResult : Except String (List ProductCreate)
  maxProducts : Nat
  now : Int
  fetchSeller : String → Option SellerCreate
  nextSellerId : Nat
  persistExc : Option String
  anyChannelActive : Bool
  notifyResult : Except String Nat

/-- A `ScrapingLog` closed by `_finish_log(log, "failed", 0, str(e))`. -/
def failedScrapeLog (e : String) : ScrapingLogRecord :=
  { status := "failed", error_message := some e, products_found := 0,
    products_filtered := 0, products_notified := 0, sellers_new := 0, sellers_updated := 0 }

/-- `_build_error_result(start_time, str(e))`. -/
def errorScrapeResults (e : String) : ScrapeResults :=
  { products_found := 0, products_new := 0, products_filtered := 0,
    products_notified := 0, sellers_new := 0, sellers_updated := 0, error := some e }

/-- `_build_empty_result(start_time)`. -/
def emptyScrapeResults : ScrapeResults :=
  { products_found := 0, products_new := 0, products_filtered := 0,
    products_notified := 0, sellers_new := 0, sellers_updated := 0, error := none }

/-- `VintedScraper.scrape_and_save`, step by step from the source:
fetch (a raised exception is caught, the log closed as `failed` and an error
dict returned), reverse and truncate, early success exit on an empty page,
filter, early success exit when everything is rejected, the per-seller loop,
the save loop (a raised commit is caught, rolled back, log `failed`, error
dict), the contained notification phase, and the closing success log. -/
def scrape_and_save (fm : FilterSettings) (search : Search) (env : ScrapeEnv)
    (db : Db) : Db × ScrapingLogRecord × ScrapeResults :=
  match env.fetchResult with
  | .error e => (db, failedScrapeLog e, errorScrapeResults e)
  | .ok raw =>
    let productsData := raw.reverse.take env.maxProducts
    if productsData = [] then
      (db, { status := "success", error_message := none, products_found := 0,
             products_filtered := 0, products_notified := 0,
             sellers_new := 0, sellers_updated := 0 },
       emptyScrapeResults)
    else
      let fr := filter_products fm productsData (some search)
      if fr.1 = [] then
        (db, { status := "success", error_message := none, products_found := 0,
               products_filtered := fr.2.rejected, products_notified := 0,
               sellers_new := 0, sellers_updated := 0 },
         { products_found := fr.2.total, products_new := 0,
           products_filtered := fr.2.rejected, products_notified := 0,
           sellers_new := 0, sellers_updated := 0, error := none })
      else
        let sellerIds := dedupFirst (fr.1.filterMap (fun p => p.seller_vinted_id))
        let sst := process_sellers env.now env.fetchSeller
          { sellers := db.sellers, sellers_new := 0, sellers_updated := 0,
            nextId := env.nextSellerId, fetchedIds := [] } sellerIds
        let saved := save_products db.products sst.sellers search.id fr.1
        match env.persistExc with
        | some e =>
          ({ products := db.products, sellers := sst.sellers },
           failedScrapeLog e, errorScrapeResults e)
        | none =>
          let productsNew := saved.2
          let productsNotified :=
            if productsNew > 0 ∧ env.anyChannelActive then
              match env.notifyResult with
              | .ok n => n
              | .error _ => 0
            else 0
          ({ products := db.products ++ saved.1, sellers := sst.sellers },
           { status := "success", error_message := none,
             products_found := productsNew, products_filtered := fr.2.rejected,
             products_notified := productsNotified,
             sellers_new := sst.sellers_new, sellers_updated := sst.sellers_updated },
           { products_found := fr.2.total, products_new := productsNew,
             products_filtered := fr.2.rejected, products_notified := productsNotified,
             sellers_new := sst.sellers_new, sellers_updated := sst.sellers_updated,
             error := none })

/-! Scheduler error accounting (`TaskManager` in app/scheduler/task_manager.py). -/

/-- The `Settings` columns the scheduler error path reads. -/
structure AppSettings where
  scheduler_error_notifications_enabled : Bool
  scheduler_error_threshold : Option Int
  telegram_bot_token : Option String
  telegram_chat_id : Option String
  discord_webhook_url : Option String
  webhook_url : Option String
deriving Repr, DecidableEq

/-- Python `x or d` on an optional integer column: `None` and `0` give the
default. -/
def pyOrInt (v : Option Int) (d : Int) : Int :=
  match v with
  | none => d
  | some t => if t = 0 then d else t

/-- The in-memory `_error_counts` dict, keyed by search id.  Values are
modelled as unbounded integers like Python ints, so non-negativity is a real
invariant. -/
def ErrorCounts : Type := Nat → Option Int

/-- Dict write `m[sid] = v`. -/
def countsSet (m : ErrorCounts) (sid : Nat) (v : Int) : ErrorCounts :=
  fun j => if j = sid then some v else m j

/-- `if search_id in self._error_counts: del self._error_counts[search_id]`. -/
def countsDel (m : ErrorCounts) (sid : Nat) : ErrorCounts :=
  fun j => if j = sid then none else m j

/-- The empty dict the `TaskManager` constructor creates. -/
def initialCounts : ErrorCounts := fun _ => none

/-- `TaskManager._check_and_notify_error`: bail out without an attempt when
there is no settings row, alerting is disabled, the counter is below the
threshold (`scheduler_error_threshold or 3`), or the search row is gone;
otherwise attempt the alert once, trying each configured channel inside its
own try/except (the recorded boolean is whether the send raised).  The whole
body sits in a further try/except, so the function never raises. -/
def check_and_notify_error (settings : Option AppSettings) (errorCount : Int)
    (searchFound : Bool) (delivery : Channel → Except String Bool) :
    Bool × List (Channel × Bool) :=
  match settings with
  | none => (false, [])
  | some s =>
    if ¬ s.scheduler_error_notifications_enabled then (false, [])
    else if errorCount < pyOrInt s.scheduler_error_threshold 3 then (false, [])
    else if ¬ searchFound then (false, [])
    else
      let tries : List (Channel × Bool) := []
      let tries := if pyTruthyStr s.telegram_bot_token ∧ pyTruthyStr s.telegram_chat_id then
          tries ++ [(Channel.telegram, attemptValue (delivery .telegram))]
        else tries
      let tries := if pyTruthyStr s.discord_webhook_url then
          tries ++ [(Channel.discord, attemptValue (delivery .discord))]
        else tries
      let tries := if pyTruthyStr s.webhook_url then
          tries ++ [(Channel.webhook, attemptValue (delivery .webhook))]
        else tries
      (true, tries)

/-- The terminal state of a `SchedulerLog` row for one search run. -/
structure SchedulerLogRecord where
  status : String
  error_message : Option String
  products_found : Nat
  products_new : Nat
  products_filtered : Nat
  products_notified : Nat
  error_count : Int
deriving Repr, DecidableEq

/-- The `except` branch of `TaskManager._run_search_job`: insert-or-zero then
increment the counter, close the `SchedulerLog` with `status="error"`, the
message and the new counter value, then run the alert check.  Returns the
new dict, the closed log and whether an alert attempt was made. -/
def job_failure_step (settings : Option AppSettings)
    (delivery : Channel → Except String Bool) (sid : Nat) (searchFound : Bool)
    (counts : ErrorCounts) (emsg : String) :
    ErrorCounts × SchedulerLogRecord × Bool :=
  let c := (counts sid).getD 0 + 1
  let counts2 := countsSet counts sid c
  let alert := check_and_notify_error settings c searchFound delivery
  (counts2,
   { status := "error", error_message := some emsg, products_found := 0,
     products_new := 0, products_filtered := 0, products_notified := 0,
     error_count := c },
   alert.1)

/-- The outcome of one `_run_search_job` call. -/
structure JobOutcome where
  counts : ErrorCounts
  jobRun : SchedulerLogRecord
  db : Db
  scrapeLog : Option ScrapingLogRecord
  alertAttempted : Bool

/-- The `Search` row fields the scheduler job reads. -/
structure SearchRow where
  search : Search
  name : String
  is_active : Bool
deriving Repr, DecidableEq

/-- `TaskManager._run_search_job`: a missing or (non-manually) inactive
search raises into the `except` branch; otherwise `scrape_and_save` runs and
its returned dict closes the log as `success` with `error_count = 0` and
resets the in-memory counter to `0`.  `scrapeLog` is the `ScrapingLog` the
scraper itself wrote (`none` when the scraper never ran). -/
def run_search_job (settings : Option AppSettings)
    (delivery : Channel → Except String Bool) (fm : FilterSettings)
    (env : ScrapeEnv) (searchRow : Option SearchRow) (sid : Nat) (manual : Bool)
    (counts : ErrorCounts) (db : Db) : JobOutcome :=
  match searchRow with
  | none =>
    let r := job_failure_step settings delivery sid false counts
      "Busqueda no encontrada"
    { counts := r.1, jobRun := r.2.1, db := db, scrapeLog := none,
      alertAttempted := r.2.2 }
  | some srow =>
    if ¬ srow.is_active ∧ ¬ manual then
      let r := job_failure_step settings delivery sid true counts
        "Busqueda desactivada"
      { counts := r.1, jobRun := r.2.1, db := db, scrapeLog := none,
        alertAttempted := r.2.2 }
    else
      let sr := scrape_and_save fm srow.search env db
      { counts := countsSet counts sid 0,
        jobRun := { status := "success", error_message := none,
                    products_found := sr.2.2.products_found,
                    products_new := sr.2.2.products_new,
                    products_filtered := sr.2.2.products_filtered,
                    products_notified := sr.2.2.products_notified,
                    error_count := 0 },
        db := sr.1, scrapeLog := some sr.2.1, alertAttempted := false }

/-- A counter-relevant scheduler event: a run completion reported as success,
a run completion reported as failure, or a job removal. -/
inductive SchedEvent where
  | runSuccess (sid : Nat)
  | runFailure (sid : Nat) (emsg : String)
  | removeJob (sid : Nat)

/-- The effect of one event on the `_error_counts` dict. -/
def applyEvent (settings : Option AppSettings)
    (delivery : Channel → Except String Bool) (counts : ErrorCounts) :
    SchedEvent → ErrorCounts
  | .runSuccess sid => countsSet counts sid 0
  | .runFailure sid emsg => (job_failure_step settings delivery sid true counts emsg).1
  | .removeJob sid => countsDel counts sid

/-- The effect of an event trace. -/
def applyEvents (settings : Option AppSettings)
    (delivery : Channel → Except String Bool) (counts : ErrorCounts)
    (events : List SchedEvent) : ErrorCounts :=
  events.foldl (applyEvent settings delivery) counts

/-- `n` consecutive failing run completions of search `sid`. -/
def iterateFailures (settings : Option AppSettings)
    (delivery : Channel → Except String Bool) (sid : Nat) (emsg : String) :
    Nat → ErrorCounts → ErrorCounts
  | 0, m => m
  | n + 1, m =>
    iterateFailures settings delivery sid emsg n
      (applyEvent settings delivery m (.runFailure sid emsg))

/-- Whether the `n`-th consecutive failure (1-based, starting from dict
state `m`) makes an alert attempt. -/
def alertAtFailure (settings : Option AppSettings)
    (delivery : Channel → Except String Bool) (sid : Nat) (emsg : String)
    (m : ErrorCounts) (n : Nat) : Bool :=
  (job_failure_step settings delivery sid true
    (iterateFailures settings delivery sid emsg (n - 1) m) emsg).2.2

/-- A retry-loop outcome that is an HTTP 200 response. -/
def is200 (o : Except String HttpResponse) : Prop :=
  ∃ r, o = .ok r ∧ r.status = 200

/-- A sample fetched seller payload for concrete evaluations. -/
def sampleSellerA : SellerCreate :=
  ⟨"s1", "alice", none, none, none, none, 0, 0, 0, 0, 0, 0, 0, 0, 0,
   false, false, false, false, false, none, none, none, none⟩

/-- A second sample payload for the same seller, after a re-fetch. -/
def sampleSellerB : SellerCreate :=
  { sampleSellerA with login := "alice2", feedback_count := 7 }

theorem filterFold_all_pass (fm : FilterSettings) (search : Option Search) :
    ∀ (ps : List ProductCreate) f r m,
      (∀ p ∈ ps, (filter_product fm p search).1 = true) →
      ps.foldl (filterStep fm search) (f, r, m) = (f ++ ps, r, m) := by
  intro ps
  induction ps with
  | nil => intro f r m _; simp
  | cons p rest ih =>
    intro f r m h
    have hp : (filter_product fm p search).1 = true := h p (by simp)
    have hrest : ∀ q ∈ rest, (filter_product fm q search).1 = true := by
      intro q hq; exact h q (by simp [hq])
    simp only [List.foldl_cons, filterStep, hp, if_pos]
    rw [ih (f ++ [p]) r m hrest]
    simp

theorem mem_filterFold (fm : FilterSettings) (search : Option Search) :
    ∀ (ps : List ProductCreate) f r m p,
      p ∈ (ps.foldl (filterStep fm search) (f, r, m)).1 →
      p ∈ f ∨ (filter_product fm p search).1 = true := by
  intro ps
  induction ps with
  | nil => intro f r m p hp; exact Or.inl (by simpa using hp)
  | cons q rest ih =>
    intro f r m p hp
    simp only [List.foldl_cons, filterStep] at hp
    by_cases hq : (filter_product fm q search).1 = true
    · simp only [hq, if_pos] at hp
      rcases ih (f ++ [q]) r m p hp with hmem | hpass
      · rcases List.mem_append.mp hmem with hf | hsingle
        · exact Or.inl hf
        · right
          have : p = q := by simpa using hsingle
          simpa [this] using hq
      · exact Or.inr hpass
    · simp only [hq, if_neg, Bool.false_eq_true, if_false] at hp
      exact ih f (r ++ [q]) (histAdd m (filter_product fm q search).2) p hp

theorem filter_products_accepted_pass (fm : FilterSettings) (ps : List ProductCreate)
    (search : Option Search) :
    ∀ p ∈ (filter_products fm ps search).1, (filter_product fm p search).1 = true := by
  intro p hp
  rcases mem_filterFold fm search ps [] [] [] p hp with hmem | hpass
  · simp at hmem
  · exact hpass

/-- Claim C4: for every candidate item and search context, the verdict of
`filter_product` is computed by evaluating the six rules in the fixed order
(global minimum price, global banned words on the lower-cased
title+description, global banned sellers, per-search banned words,
per-search banned seller identifiers, per-search allowed-country whitelist,
the last only when both the list and the seller country are present),
short-circuiting so that the first failing rule determines the returned
rejection reason; an item passing all six rules is accepted with no
reason. -/
theorem claim_C4_filter_rule_order (fm : FilterSettings) (p : ProductCreate)
    (s : Option Search) : filter_product fm p s = filter_product_spec fm p s := by
  unfold filter_product filter_product_spec ruleSequence rule1 rule2 rule3 rule4 rule5 rule6
  simp only [List.findSome?, id_eq]
  by_cases h1 : fm.global_min_price > 0 ∧ p.price < fm.global_min_price
  · simp [h1]
  · simp only [if_neg h1]
    cases h2 : List.find? (fun w => pyIn w (textToCheck p)) fm.global_banned_words with
    | some w => simp [h2]
    | none =>
      simp only [h2, Option.map_none']
      cases h3 : (if fm.global_banned_sellers ≠ [] ∧ pyTruthyStr p.seller_name = true then
          List.find? (fun b =>
            pyIn b (pyLower (p.seller_name.getD "")) ||
              b == (if pyTruthyStr p.seller_vinted_id = true then
                pyLower (p.seller_vinted_id.getD "") else "")) fm.global_banned_sellers
        else none) with
      | some b => simp [h3]
      | none =>
        simp only [h3, Option.map_none']
        cases s with
        | none => rfl
        | some s =>
          cases h4 : (if pyTruthyList s.banned_words = true then
              List.find? (fun w => pyIn w (textToCheck p)) (s.banned_words.getD [])
            else none) with
          | some w => simp [h4]
          | none =>
            simp only [h4, Option.map_none']
            by_cases h5 : pyTruthyList s.banned_seller_ids = true ∧
                pyTruthyStr p.seller_vinted_id = true ∧
                (s.banned_seller_ids.getD []).contains (p.seller_vinted_id.getD "") = true
            · obtain ⟨h5a, h5b, h5c⟩ := h5
              simp at h5c
              simp [h5a, h5b, h5c]
            · simp only [if_neg h5]
              by_cases h6 : pyTruthyList s.allowed_countries = true ∧
                  pyTruthyStr p.seller_country = true ∧
                  (¬ s.allowed_countries.getD [] = [] ∧
                    p.seller_country.getD "" ∉ s.allowed_countries.getD [])
              · simp [h6]
              · simp [h6]

/-- Claim C6: running the batch filter on its own accepted output returns
that output unchanged, with accepted = total, 0 rejected and an empty reason
histogram on the second pass. -/
theorem claim_C6_filter_idempotent (fm : FilterSettings) (ps : List ProductCreate)
    (s : Option Search) :
    filter_products fm (filter_products fm ps s).1 s =
      ((filter_products fm ps s).1,
       { total := (filter_products fm ps s).1.length,
         accepted := (filter_products fm ps s).1.length,
         rejected := 0, rejection_reasons := [] }) := by
  have hpass := filter_products_accepted_pass fm ps s
  generalize hL : (filter_products fm ps s).1 = l at hpass ⊢
  show filter_products fm l s = _
  unfold filter_products
  rw [filterFold_all_pass fm s l [] [] [] hpass]
  simp

/-! Consecutive-error counter lemmas. -/

theorem failure_step_count (settings : Option AppSettings)
    (delivery : Channel → Except String Bool) (sid : Nat) (found : Bool)
    (m : ErrorCounts) (emsg : String) :
    (job_failure_step settings delivery sid found m emsg).1 sid =
      some ((m sid).getD 0 + 1) := by
  simp [job_failure_step, countsSet]

theorem iterateFailures_count (settings : Option AppSettings)
    (delivery : Channel → Except String Bool) (sid : Nat) (emsg : String) :
    ∀ (n : Nat) (m : ErrorCounts), 1 ≤ n →
      iterateFailures settings delivery sid emsg n m sid =
        some ((m sid).getD 0 + n) := by
  intro n
  induction n with
  | zero => intro m h; omega
  | succ k ih =>
    intro m _
    cases k with
    | zero =>
      simpa [iterateFailures, applyEvent] using failure_step_count settings delivery sid true m emsg
    | succ k2 =>
      show iterateFailures settings delivery sid emsg (k2 + 1)
        (applyEvent settings delivery m (.runFailure sid emsg)) sid = _
      rw [ih _ (by omega)]
      have : (applyEvent settings delivery m (.runFailure sid emsg) sid).getD 0 =
          (m sid).getD 0 + 1 := by
        simp [applyEvent, failure_step_count]
      rw [this]
      congr 1
      push_cast
      ring

/-- Non-negativity of every value in the counter dict. -/
def countsNonneg (m : ErrorCounts) : Prop :=
  ∀ sid v, m sid = some v → 0 ≤ v

theorem applyEvent_nonneg (settings : Option AppSettings)
    (delivery : Channel → Except String Bool) (m : ErrorCounts) (e : SchedEvent)
    (h : countsNonneg m) : countsNonneg (applyEvent settings delivery m e) := by
  cases e with
  | runSuccess sid =>
    intro j v hv
    by_cases hj : j = sid
    · simp [applyEvent, countsSet, hj] at hv; omega
    · exact h j v (by simpa [applyEvent, countsSet, hj] using hv)
  | runFailure sid emsg =>
    intro j v hv
    by_cases hj : j = sid
    · subst hj
      simp [applyEvent, job_failure_step, countsSet] at hv
      cases hm : m j with
      | none => simp [hm] at hv; omega
      | some v0 => have := h j v0 hm; simp [hm] at hv; omega
    · exact h j v (by simpa [applyEvent, job_failure_step, countsSet, hj] using hv)
  | removeJob sid =>
    intro j v hv
    by_cases hj : j = sid
    · simp [applyEvent, countsDel, hj] at hv
    · exact h j v (by simpa [applyEvent, countsDel, hj] using hv)

theorem applyEvents_nonneg (settings : Option AppSettings)
    (delivery : Channel → Except String Bool) :
    ∀ (events : List SchedEvent) (m : ErrorCounts),
      countsNonneg m → countsNonneg (applyEvents settings delivery m events) := by
  intro events
  induction events with
  | nil => intro m h; simpa [applyEvents] using h
  | cons e rest ih =>
    intro m h
    have : applyEvents settings delivery m (e :: rest) =
        applyEvents settings delivery (applyEvent settings delivery m e) rest := by
      simp [applyEvents]
    rw [this]
    exact ih _ (applyEvent_nonneg settings delivery m e h)

/-- Claim C3: for every search key, after `n` consecutive failing run
completions with no intervening success (starting from a fresh or
just-reset counter) the in-memory consecutive-error counter equals `n`;
after any run completion reported as success the counter is `0`; and every
value ever held by the counter dict along any event trace from the initial
empty dict is non-negative. -/
theorem claim_C3_counter (settings : Option AppSettings)
    (delivery : Channel → Except String Bool) :
    (∀ (m : ErrorCounts) (sid : Nat) (emsg : String) (n : Nat),
        1 ≤ n → (m sid = none ∨ m sid = some 0) →
        iterateFailures settings delivery sid emsg n m sid = some (n : Int)) ∧
    (∀ (m : ErrorCounts) (sid : Nat),
        applyEvent settings delivery m (.runSuccess sid) sid = some 0) ∧
    (∀ (events : List SchedEvent) (sid : Nat) (v : Int),
        applyEvents settings delivery initialCounts events sid = some v → 0 ≤ v) := by
  refine ⟨?_, ?_, ?_⟩
  · intro m sid emsg n hn h0
    rw [iterateFailures_count settings delivery sid emsg n m hn]
    rcases h0 with h | h <;> simp [h]
  · intro m sid
    simp [applyEvent, countsSet]
  · intro events sid v hv
    exact applyEvents_nonneg settings delivery events initialCounts
      (fun _ _ h => by simp [initialCounts] at h) sid v hv

/-- Witness for claim C3 at concrete inputs: three straight failures leave
the counter at 3, a success resets it to 0, and a concrete trace value is
non-negative. -/
theorem claim_C3_counter_witness :
    iterateFailures none (fun _ => .ok true) 1 "e" 3 initialCounts 1 = some 3 ∧
    applyEvent none (fun _ => .ok true) initialCounts (.runSuccess 2) 2 = some 0 ∧
    0 ≤ (1 : Int) :=
  ⟨(claim_C3_counter none (fun _ => .ok true)).1 initialCounts 1 "e" 3 (by decide)
      (Or.inl rfl),
   (claim_C3_counter none (fun _ => .ok true)).2.1 initialCounts 2,
   (claim_C3_counter none (fun _ => .ok true)).2.2 [SchedEvent.runFailure 1 "e"] 1 1
      (by simp [applyEvents, applyEvent, job_failure_step, countsSet, initialCounts])⟩

theorem check_flag (s : AppSettings) (delivery : Channel → Except String Bool)
    (c : Int) (hen : s.scheduler_error_notifications_enabled = true)
    (hth : s.scheduler_error_threshold = some 3) :
    (check_and_notify_error (some s) c true delivery).1 = decide (3 ≤ c) := by
  simp only [check_and_notify_error, hen, hth, pyOrInt]
  by_cases hc : c < 3
  · simp [hc]
  · simp [hc]
    omega

theorem jfs_flag (s : AppSettings) (delivery : Channel → Except String Bool)
    (sid : Nat) (emsg : String) (m2 : ErrorCounts)
    (hen : s.scheduler_error_notifications_enabled = true)
    (hth : s.scheduler_error_threshold = some 3) :
    (job_failure_step (some s) delivery sid true m2 emsg).2.2 =
      decide (3 ≤ (m2 sid).getD 0 + 1) := by
  simp only [job_failure_step]
  exact check_flag s delivery _ hen hth

/-- Claim C2: with error alerting enabled and the threshold configured to 3,
along any sequence of consecutive failing runs of one search with no
intervening success, the 1st and 2nd failures make no alert attempt while
the n-th failure for every n at or above 3 makes exactly one alert attempt;
and the scheduler-visible outcome of a failing run (the new counter dict and
the closed SchedulerLog) is the same whatever the alert deliveries do, so an
alert-delivery failure never escalates to a scheduler failure. -/
theorem claim_C2_threshold_alert (s : AppSettings)
    (delivery : Channel → Except String Bool) (sid : Nat) (emsg : String)
    (m : ErrorCounts)
    (hen : s.scheduler_error_notifications_enabled = true)
    (hth : s.scheduler_error_threshold = some 3)
    (h0 : m sid = none ∨ m sid = some 0) :
    (∀ n : Nat, 1 ≤ n →
        alertAtFailure (some s) delivery sid emsg m n = decide (3 ≤ n)) ∧
    (∀ d2 : Channel → Except String Bool,
      (job_failure_step (some s) delivery sid true m emsg).1 =
          (job_failure_step (some s) d2 sid true m emsg).1 ∧
        (job_failure_step (some s) delivery sid true m emsg).2.1 =
          (job_failure_step (some s) d2 sid true m emsg).2.1) := by
  constructor
  · intro n hn
    have hgetD : (iterateFailures (some s) delivery sid emsg (n - 1) m sid).getD 0 =
        ((n : Int) - 1) := by
      cases n with
      | zero => omega
      | succ k =>
        cases k with
        | zero =>
          rcases h0 with h | h <;> simp [iterateFailures, h]
        | succ k2 =>
          have := iterateFailures_count (some s) delivery sid emsg (k2 + 1) m (by omega)
          simp only [Nat.succ_sub_one]
          rw [this]
          rcases h0 with h | h <;> simp [h]
    unfold alertAtFailure
    rw [jfs_flag s delivery sid emsg _ hen hth]
    rw [hgetD]
    have h2 : ((n : Int) - 1 + 1) = (n : Int) := by ring
    rw [h2]
    simp [Int.ofNat_le]
  · intro d2
    exact ⟨rfl, rfl⟩

/-- Witness for claim C2 at concrete inputs: with alerting on and threshold
3, the 2nd consecutive failure attempts no alert, the 3rd does, and a
failing alert delivery leaves the scheduler outcome identical to a
succeeding one. -/
theorem claim_C2_threshold_alert_witness :
    alertAtFailure (some ⟨true, some 3, some "t", some "c", none, none⟩)
        (fun _ => Except.error "send failed") 5 "x" initialCounts 2 = decide (3 ≤ 2) ∧
    alertAtFailure (some ⟨true, some 3, some "t", some "c", none, none⟩)
        (fun _ => Except.error "send failed") 5 "x" initialCounts 3 = decide (3 ≤ 3) ∧
    (job_failure_step (some ⟨true, some 3, some "t", some "c", none, none⟩)
        (fun _ => Except.error "send failed") 5 true initialCounts "x").1 =
      (job_failure_step (some ⟨true, some 3, some "t", some "c", none, none⟩)
        (fun _ => Except.ok true) 5 true initialCounts "x").1 :=
  ⟨(claim_C2_threshold_alert _ _ 5 "x" initialCounts rfl rfl (Or.inl rfl)).1 2
      (by decide),
   (claim_C2_threshold_alert _ _ 5 "x" initialCounts rfl rfl (Or.inl rfl)).1 3
      (by decide),
   ((claim_C2_threshold_alert _ (fun _ => Except.error "send failed") 5 "x"
      initialCounts rfl rfl (Or.inl rfl)).2 (fun _ => Except.ok true)).1⟩

/-! Dedup on persistence. -/

theorem run_save_single_new (store : List StoredProduct) (sellers : List Seller)
    (sid : Nat) (p : ProductCreate)
    (h : store.find? (fun sp => sp.data.vinted_id = p.vinted_id) = none) :
    run_save store sellers sid [p] =
      (store ++ [{ data := p, search_id := sid,
                   seller_id := resolveSellerId sellers p }], 1) := by
  have h2 : ∀ x ∈ store, ¬ x.data.vinted_id = p.vinted_id := by
    intro x hx
    simpa using List.find?_eq_none.mp h x hx
  have hne : ¬ ∃ x ∈ store, x.data.vinted_id = p.vinted_id := by
    push_neg
    exact h2
  simp [run_save, save_products, hne]

/-- Claim C5: persisting an item whose natural identifier is not yet in the
store inserts exactly one row and counts 1 new item; a second run persisting
the same natural identifier is skipped by the existence check, counts 0 new
items, and leaves the store (in particular the already-stored row) entirely
unchanged. -/
theorem claim_C5_dedup (store : List StoredProduct) (sellers sellers2 : List Seller)
    (sid sid2 : Nat) (p p2 : ProductCreate)
    (hid : p2.vinted_id = p.vinted_id)
    (h : store.find? (fun sp => sp.data.vinted_id = p.vinted_id) = none) :
    (run_save store sellers sid [p]).2 = 1 ∧
    ((run_save store sellers sid [p]).1.filter
        (fun sp => sp.data.vinted_id = p.vinted_id)).length = 1 ∧
    run_save (run_save store sellers sid [p]).1 sellers2 sid2 [p2] =
      ((run_save store sellers sid [p]).1, 0) := by
  have h1 := run_save_single_new store sellers sid p h
  refine ⟨by simp [h1], ?_, ?_⟩
  · rw [h1]
    simp only [List.filter_append]
    have hstore : store.filter (fun sp => sp.data.vinted_id = p.vinted_id) = [] := by
      rw [List.filter_eq_nil_iff]
      intro a ha
      have := List.find?_eq_none.mp h a ha
      simpa using this
    rw [hstore]
    simp
  · rw [h1]
    simp [run_save, save_products, hid]

/-- Witness for claim C5 at a concrete input: one product persisted twice
from an empty store. -/
theorem claim_C5_dedup_witness :
    (run_save [] [] 1 [(⟨"v1", "t", none, 5, none, none, none⟩ : ProductCreate)]).2 = 1 ∧
    ((run_save [] [] 1 [(⟨"v1", "t", none, 5, none, none, none⟩ : ProductCreate)]).1.filter
        (fun sp => sp.data.vinted_id =
          (⟨"v1", "t", none, 5, none, none, none⟩ : ProductCreate).vinted_id)).length = 1 ∧
    run_save (run_save [] [] 1
        [(⟨"v1", "t", none, 5, none, none, none⟩ : ProductCreate)]).1 [] 2
        [(⟨"v1", "t", none, 5, none, none, none⟩ : ProductCreate)] =
      ((run_save [] [] 1 [(⟨"v1", "t", none, 5, none, none, none⟩ : ProductCreate)]).1, 0) :=
  claim_C5_dedup [] [] [] 1 2 _ _ rfl rfl

theorem find?_middle (svid : String) :
    ∀ (pre : List Seller) (post : List Seller) (ex : Seller),
      (∀ s ∈ pre, s.data.vinted_id ≠ svid) → ex.data.vinted_id = svid →
      (pre ++ ex :: post).find? (fun s => s.data.vinted_id = svid) = some ex := by
  intro pre
  induction pre with
  | nil => intro post ex _ hex; simp [List.find?, hex]
  | cons a rest ih =>
    intro post ex hpre hex
    have ha : ¬ a.data.vinted_id = svid := hpre a (by simp)
    simp only [List.cons_append, List.find?]
    rw [decide_eq_false ha]
    exact ih post ex (fun s hs => hpre s (by simp [hs])) hex

theorem replaceFirst_middle (f : Seller → Seller) (svid : String) :
    ∀ (pre : List Seller) (post : List Seller) (ex : Seller),
      (∀ s ∈ pre, s.data.vinted_id ≠ svid) → ex.data.vinted_id = svid →
      replaceFirstSeller f svid (pre ++ ex :: post) = pre ++ f ex :: post := by
  intro pre
  induction pre with
  | nil => intro post ex _ hex; simp [replaceFirstSeller, hex]
  | cons a rest ih =>
    intro post ex hpre hex
    have ha : ¬ a.data.vinted_id = svid := hpre a (by simp)
    simp only [List.cons_append, replaceFirstSeller, if_neg ha]
    exact congrArg (fun l => a :: l) (ih post ex (fun s hs => hpre s (by simp [hs])) hex)

/-- Claim C9: with the 1-day freshness cutoff, a stored seller whose
`last_updated_at` is newer than the cutoff is skipped with no fetch and no
write (the loop state is returned untouched); one older than or at the
cutoff is re-fetched and its row is overwritten with every fetched field and
a new `last_updated_at`, while its `id` and `first_seen_at` (and the rest of
the store) stay unchanged. -/
theorem claim_C9_seller_freshness (now : Int) (fetch : String → Option SellerCreate)
    (st : SellerLoopState) (svid : String) (pre post : List Seller) (ex : Seller)
    (t : Int)
    (hsplit : st.sellers = pre ++ ex :: post)
    (hpre : ∀ s ∈ pre, s.data.vinted_id ≠ svid)
    (hex : ex.data.vinted_id = svid)
    (hlast : ex.last_updated_at = some t) :
    (t > updateThreshold now → process_seller now fetch st svid = st) ∧
    (t ≤ updateThreshold now → ∀ d, fetch svid = some d →
      process_seller now fetch st svid =
        { st with
          sellers := pre ++ { ex with data := d, last_updated_at := some now } :: post,
          sellers_updated := st.sellers_updated + 1,
          fetchedIds := st.fetchedIds ++ [svid] }) := by
  have hfind : st.sellers.find? (fun s => s.data.vinted_id = svid) = some ex := by
    rw [hsplit]; exact find?_middle svid pre post ex hpre hex
  constructor
  · intro hfresh
    simp [process_seller, hfind, hlast, hfresh]
  · intro hstale d hd
    have hnot : ¬ t > updateThreshold now := by omega
    simp only [process_seller, hfind, hlast, decide_eq_true_eq, if_neg hnot, hd]
    rw [hsplit]
    rw [replaceFirst_middle _ svid pre post ex hpre hex]

/-- Witness for claim C9 at concrete inputs: with `now = 100` (hours) the
cutoff is 76; a seller refreshed at 98 (2 hours ago) is skipped untouched,
one refreshed at 75 (25 hours ago) is re-fetched and overwritten with its
`id` 3 and `first_seen_at` 50 preserved. -/
theorem claim_C9_seller_freshness_witness :
    process_seller 100 (fun _ => none)
        ⟨[⟨3, sampleSellerA, none, 50, some 98⟩], 0, 0, 10, []⟩ "s1" =
      ⟨[⟨3, sampleSellerA, none, 50, some 98⟩], 0, 0, 10, []⟩ ∧
    process_seller 100 (fun _ => some sampleSellerB)
        ⟨[⟨3, sampleSellerA, none, 50, some 75⟩], 0, 0, 10, []⟩ "s1" =
      ⟨[⟨3, sampleSellerB, none, 50, some 100⟩], 0, 1, 10, ["s1"]⟩ :=
  ⟨(claim_C9_seller_freshness 100 (fun _ => none)
      ⟨[⟨3, sampleSellerA, none, 50, some 98⟩], 0, 0, 10, []⟩ "s1" [] []
      ⟨3, sampleSellerA, none, 50, some 98⟩ 98 rfl (by simp) rfl rfl).1 (by decide),
   (claim_C9_seller_freshness 100 (fun _ => some sampleSellerB)
      ⟨[⟨3, sampleSellerA, none, 50, some 75⟩], 0, 0, 10, []⟩ "s1" [] []
      ⟨3, sampleSellerA, none, 50, some 75⟩ 75 rfl (by simp) rfl rfl).2 (by decide)
      sampleSellerB rfl⟩

/-- Claim C7: every configured channel is attempted independently by the
fan-out: a channel whose send raises is recorded as `false` in the
per-channel result map without preventing the other channels (each
configured channel appears in the map with exactly its own outcome, an
unconfigured one does not appear), the item is marked delivered exactly when
some channel reports success, and with channel A succeeding and channel B
raising the map is A true, B false and the item is delivered. -/
theorem claim_C7_fanout (cfg : Channel → Option (Except String Bool)) :
    (∀ c out, cfg c = some out →
      (notify_product cfg).1.find? (fun e => e.1 = c) = some (c, attemptValue out)) ∧
    (∀ c, cfg c = none →
      (notify_product cfg).1.find? (fun e => e.1 = c) = none) ∧
    (notify_product cfg).2 = (notify_product cfg).1.any (fun e => e.2) ∧
    (∀ e : String,
      notify_product (fun c => match c with
        | .telegram => some (.ok true)
        | .discord => some (.error e)
        | .webhook => none) =
      ([(.telegram, true), (.discord, false)], true)) := by
  refine ⟨?_, ?_, ?_, ?_⟩
  · intro c out hc
    cases c <;>
      cases h1 : cfg .telegram <;> cases h2 : cfg .discord <;> cases h3 : cfg .webhook <;>
      simp_all [notify_product]
  · intro c hc
    cases c <;>
      cases h1 : cfg .telegram <;> cases h2 : cfg .discord <;> cases h3 : cfg .webhook <;>
      simp_all [notify_product]
  · cases h1 : cfg .telegram <;> cases h2 : cfg .discord <;> cases h3 : cfg .webhook <;>
      simp [notify_product, h1, h2, h3]
  · intro e
    rfl

/-- Witness for claim C7 at a concrete configuration: telegram succeeds,
discord raises, webhook is unconfigured. -/
theorem claim_C7_fanout_witness :
    (notify_product (fun c => match c with
        | .telegram => some (.ok true)
        | .discord => some (.error "boom")
        | .webhook => none)).1.find? (fun e => e.1 = Channel.discord) =
      some (Channel.discord, attemptValue (.error "boom")) ∧
    (notify_product (fun c => match c with
        | .telegram => some (.ok true)
        | .discord => some (.error "boom")
        | .webhook => none)).1.find? (fun e => e.1 = Channel.webhook) = none :=
  ⟨(claim_C7_fanout (fun c => match c with
        | .telegram => some (.ok true)
        | .discord => some (.error "boom")
        | .webhook => none)).1 .discord (.error "boom") rfl,
   (claim_C7_fanout (fun c => match c with
        | .telegram => some (.ok true)
        | .discord => some (.error "boom")
        | .webhook => none)).2.1 .webhook rfl⟩

theorem go_used_le (attempts : Nat → Except String HttpResponse) :
    ∀ (fuel tried : Nat), (vintedGetGo attempts tried fuel).2 ≤ tried + fuel := by
  intro fuel
  induction fuel with
  | zero => intro tried; simp [vintedGetGo]
  | succ f ih =>
    intro tried
    simp only [vintedGetGo]
    split <;> (repeat' split) <;>
      first
        | exact le_trans (ih (tried + 1)) (by omega)
        | omega

theorem go_200 (attempts : Nat → Except String HttpResponse) (tried fuel : Nat)
    (r : HttpResponse) (h : attempts (tried + 1) = .ok r) (h200 : r.status = 200) :
    vintedGetGo attempts tried (fuel + 1) = (.ok r, tried + 1) := by
  simp [vintedGetGo, h, h200]

theorem go_continue (attempts : Nat → Except String HttpResponse) (tried fuel : Nat)
    (r : HttpResponse) (h : attempts (tried + 1) = .ok r) (hn : r.status ≠ 200)
    (hlt : tried + 1 < MAX_RETRIES) :
    vintedGetGo attempts tried (fuel + 1) = vintedGetGo attempts (tried + 1) fuel := by
  simp only [vintedGetGo, h]
  by_cases hsoft : r.status = 401 ∨ r.status = 403 ∨ r.status = 404
  · rw [if_pos ⟨hsoft, hlt⟩]
  · rw [if_neg (by tauto)]
    rw [if_neg hn]
    rw [if_neg (by omega)]

theorem go_err_continue (attempts : Nat → Except String HttpResponse) (tried fuel : Nat)
    (e : String) (h : attempts (tried + 1) = .error e) (hlt : tried + 1 < MAX_RETRIES) :
    vintedGetGo attempts tried (fuel + 1) = vintedGetGo attempts (tried + 1) fuel := by
  simp [vintedGetGo, h, hlt]

theorem go_last_ok (attempts : Nat → Except String HttpResponse) (r : HttpResponse)
    (h : attempts 3 = .ok r) (hn : r.status ≠ 200) :
    vintedGetGo attempts 2 1 = (.ok r, 3) := by
  simp only [vintedGetGo, h]
  rw [if_neg (by simp [MAX_RETRIES])]
  rw [if_neg hn]
  rw [if_pos (by simp [MAX_RETRIES])]

theorem go_last_err (attempts : Nat → Except String HttpResponse) (e : String)
    (h : attempts 3 = .error e) :
    vintedGetGo attempts 2 1 = (.error ("Failed after 3 attempts: " ++ e), 3) := by
  simp [vintedGetGo, h, MAX_RETRIES]

/-- When no attempt yields a 200, the loop consumes all three attempts and
surfaces the third outcome: the response as-is, or the wrapped transport
error. -/
theorem vintedGet_no200 (attempts : Nat → Except String HttpResponse)
    (hall : ∀ j, 1 ≤ j → j ≤ 3 → ∀ r, attempts j = .ok r → r.status ≠ 200) :
    vintedGet attempts =
      (match attempts 3 with
       | .ok r => .ok r
       | .error e => .error ("Failed after 3 attempts: " ++ e), 3) := by
  show vintedGetGo attempts 0 3 = _
  have step1 : vintedGetGo attempts 0 3 = vintedGetGo attempts 1 2 := by
    cases h1 : attempts 1 with
    | ok r1 =>
      exact go_continue attempts 0 2 r1 h1 (hall 1 (by omega) (by omega) r1 h1)
        (by simp [MAX_RETRIES])
    | error e1 => exact go_err_continue attempts 0 2 e1 h1 (by simp [MAX_RETRIES])
  have step2 : vintedGetGo attempts 1 2 = vintedGetGo attempts 2 1 := by
    cases h2 : attempts 2 with
    | ok r2 =>
      exact go_continue attempts 1 1 r2 h2 (hall 2 (by omega) (by omega) r2 h2)
        (by simp [MAX_RETRIES])
    | error e2 => exact go_err_continue attempts 1 1 e2 h2 (by simp [MAX_RETRIES])
  rw [step1, step2]
  cases h3 : attempts 3 with
  | ok r3 =>
    rw [go_last_ok attempts r3 h3 (hall 3 (by omega) (by omega) r3 h3)]
  | error e3 =>
    rw [go_last_err attempts e3 h3]

/-- Claim C8: the client makes at most 3 attempts per logical request; a 200
response on any attempt (the first such attempt) short-circuits and is
returned immediately with that attempt count; once all attempts are
exhausted without a 200, the last response is returned, or the transport
error of the last attempt is raised, wrapped — never silently swallowed. -/
theorem claim_C8_retry (attempts : Nat → Except String HttpResponse) :
    (vintedGet attempts).2 ≤ 3 ∧
    (∀ k r, 1 ≤ k → k ≤ 3 → attempts k = .ok r → r.status = 200 →
      (∀ j, 1 ≤ j → j < k → ¬ is200 (attempts j)) →
      vintedGet attempts = (.ok r, k)) ∧
    ((∀ j, 1 ≤ j → j ≤ 3 → ¬ is200 (attempts j)) →
      vintedGet attempts =
        (match attempts 3 with
         | .ok r => .ok r
         | .error e => .error ("Failed after 3 attempts: " ++ e), 3)) := by
  refine ⟨?_, ?_, ?_⟩
  · exact le_trans (go_used_le attempts 3 0) (by omega)
  · intro k r hk1 hk3 hak h200 hfirst
    interval_cases k
    · exact go_200 attempts 0 2 r hak h200
    · show vintedGetGo attempts 0 3 = _
      cases h1 : attempts 1 with
      | ok r1 =>
        have hn1 : r1.status ≠ 200 := fun hh => hfirst 1 (by omega) (by omega) ⟨r1, h1, hh⟩
        rw [go_continue attempts 0 2 r1 h1 hn1 (by simp [MAX_RETRIES])]
        exact go_200 attempts 1 1 r hak h200
      | error e1 =>
        rw [go_err_continue attempts 0 2 e1 h1 (by simp [MAX_RETRIES])]
        exact go_200 attempts 1 1 r hak h200
    · show vintedGetGo attempts 0 3 = _
      have step1 : vintedGetGo attempts 0 3 = vintedGetGo attempts 1 2 := by
        cases h1 : attempts 1 with
        | ok r1 =>
          have hn1 : r1.status ≠ 200 := fun hh => hfirst 1 (by omega) (by omega) ⟨r1, h1, hh⟩
          exact go_continue attempts 0 2 r1 h1 hn1 (by simp [MAX_RETRIES])
        | error e1 => exact go_err_continue attempts 0 2 e1 h1 (by simp [MAX_RETRIES])
      have step2 : vintedGetGo attempts 1 2 = vintedGetGo attempts 2 1 := by
        cases h2 : attempts 2 with
        | ok r2 =>
          have hn2 : r2.status ≠ 200 := fun hh => hfirst 2 (by omega) (by omega) ⟨r2, h2, hh⟩
          exact go_continue attempts 1 1 r2 h2 hn2 (by simp [MAX_RETRIES])
        | error e2 => exact go_err_continue attempts 1 1 e2 h2 (by simp [MAX_RETRIES])
      rw [step1, step2]
      exact go_200 attempts 2 0 r hak h200
  · intro hall
    exact vintedGet_no200 attempts
      (fun j hj1 hj2 r hr h200 => hall j hj1 hj2 ⟨r, hr, h200⟩)


/-- Claim C10: when every retry attempt of a catalog request returns a soft
block (401/403/404), `get` returns that last non-200 response instead of
raising, `scrape_catalog` turns it into an empty product list, and
`scrape_and_save` closes the run as success with zero products found — the
whole run outcome equals that of an empty catalog. -/
theorem claim_C10_soft_block (attempts : Nat → Except String HttpResponse)
    (parse : HttpResponse → List ProductCreate) (fm : FilterSettings)
    (search : Search) (env : ScrapeEnv) (db : Db)
    (hb : ∀ k, 1 ≤ k → k ≤ 3 → ∃ r, attempts k = .ok r ∧
      (r.status = 401 ∨ r.status = 403 ∨ r.status = 404))
    (henv : env.fetchResult = scrape_catalog attempts parse) :
    scrape_catalog attempts parse = .ok [] ∧
    (scrape_and_save fm search env db).2.1.status = "success" ∧
    (scrape_and_save fm search env db).2.2 = emptyScrapeResults ∧
    scrape_and_save fm search env db =
      scrape_and_save fm search { env with fetchResult := .ok [] } db := by
  have hall : ∀ j, 1 ≤ j → j ≤ 3 → ∀ r, attempts j = .ok r → r.status ≠ 200 := by
    intro j hj1 hj2 r hr
    obtain ⟨r2, h2, hs2⟩ := hb j hj1 hj2
    rw [hr] at h2
    injection h2 with h2
    subst h2
    rcases hs2 with h | h | h <;> omega
  have hget := vintedGet_no200 attempts hall
  obtain ⟨r3, h3, hs3⟩ := hb 3 (by omega) (by omega)
  have hn3 : r3.status ≠ 200 := hall 3 (by omega) (by omega) r3 h3
  have hcat : scrape_catalog attempts parse = .ok [] := by
    rw [scrape_catalog, hget, h3]
    simp [hn3]
  have hfe : env.fetchResult = Except.ok [] := henv.trans hcat
  have henveq : { env with fetchResult := Except.ok ([] : List ProductCreate) } = env := by
    cases env
    simp at hfe
    simp [hfe]
  refine ⟨hcat, ?_, ?_, ?_⟩
  · simp [scrape_and_save, hfe]
  · simp [scrape_and_save, hfe]
  · rw [henveq]


/-- Witness for claim C8 at concrete attempt oracles: a 403 then a 200
returns the 200 after two attempts; three 403s return the last 403 after
three attempts. -/
theorem claim_C8_retry_witness :
    vintedGet (fun k => if k = 1 then .ok ⟨403, "b"⟩ else .ok ⟨200, "gd"⟩) =
      (.ok ⟨200, "gd"⟩, 2) ∧
    vintedGet (fun _ => .ok ⟨403, "b"⟩) = (.ok ⟨403, "b"⟩, 3) :=
  ⟨(claim_C8_retry (fun k => if k = 1 then .ok ⟨403, "b"⟩ else .ok ⟨200, "gd"⟩)).2.1
      2 ⟨200, "gd"⟩ (by omega) (by omega) rfl rfl
      (by
        intro j hj1 hj2 h
        obtain ⟨r, hr, h200⟩ := h
        interval_cases j
        simp at hr
        rw [← hr] at h200
        simp at h200),
   (claim_C8_retry (fun _ => .ok ⟨403, "b"⟩)).2.2
      (by
        intro j hj1 hj2 h
        obtain ⟨r, hr, h200⟩ := h
        injection hr with hr
        rw [← hr] at h200
        simp at h200)⟩

/-- Witness for claim C10 at a concrete always-403 oracle. -/
theorem claim_C10_soft_block_witness :
    scrape_catalog (fun _ => .ok ⟨403, "blocked"⟩) (fun _ => []) = .ok [] ∧
    (scrape_and_save ⟨0, [], []⟩ ⟨7, none, none, none⟩
        ⟨.ok [], 96, 100, fun _ => none, 1, none, false, .ok 0⟩
        ⟨[], []⟩).2.1.status = "success" :=
  let h := claim_C10_soft_block (fun _ => .ok ⟨403, "blocked"⟩) (fun _ => [])
      ⟨0, [], []⟩ ⟨7, none, none, none⟩
      ⟨.ok [], 96, 100, fun _ => none, 1, none, false, .ok 0⟩ ⟨[], []⟩
      (fun _ _ _ => ⟨⟨403, "blocked"⟩, rfl, Or.inr (Or.inl rfl)⟩) rfl
  ⟨h.1, h.2.1⟩

/-- Claim C1 (divergence record): at the failing inputs — a catalog fetch
that raises "boom", and a products commit that raises "disk full" — the
exception does not propagate to the scheduler: `scrape_and_save` catches it,
closes its ScrapingLog as status "failed" with the error detail and returns
an error dict, and `_run_search_job` then closes the SchedulerLog as
status "success" and resets the consecutive-error counter to 0 with no
alert attempt, contradicting the claimed status=error propagation and
counter increment. -/
theorem claim_C1_divergence :
    (run_search_job (some ⟨true, some 3, some "t", some "c", none, none⟩)
        (fun _ => Except.ok true) ⟨0, [], []⟩
        ⟨Except.error "boom", 96, 100, fun _ => none, 1, none, false, Except.ok 0⟩
        (some ⟨⟨7, none, none, none⟩, "test", true⟩) 7 false initialCounts
        ⟨[], []⟩).jobRun.status = "success" ∧
    (run_search_job (some ⟨true, some 3, some "t", some "c", none, none⟩)
        (fun _ => Except.ok true) ⟨0, [], []⟩
        ⟨Except.error "boom", 96, 100, fun _ => none, 1, none, false, Except.ok 0⟩
        (some ⟨⟨7, none, none, none⟩, "test", true⟩) 7 false initialCounts
        ⟨[], []⟩).counts 7 = some 0 ∧
    (run_search_job (some ⟨true, some 3, some "t", some "c", none, none⟩)
        (fun _ => Except.ok true) ⟨0, [], []⟩
        ⟨Except.error "boom", 96, 100, fun _ => none, 1, none, false, Except.ok 0⟩
        (some ⟨⟨7, none, none, none⟩, "test", true⟩) 7 false initialCounts
        ⟨[], []⟩).scrapeLog = some (failedScrapeLog "boom") ∧
    (run_search_job (some ⟨true, some 3, some "t", some "c", none, none⟩)
        (fun _ => Except.ok true) ⟨0, [], []⟩
        ⟨Except.error "boom", 96, 100, fun _ => none, 1, none, false, Except.ok 0⟩
        (some ⟨⟨7, none, none, none⟩, "test", true⟩) 7 false initialCounts
        ⟨[], []⟩).alertAttempted = false ∧
    (run_search_job (some ⟨true, some 3, some "t", some "c", none, none⟩)
        (fun _ => Except.ok true) ⟨0, [], []⟩
        ⟨Except.ok [⟨"v1", "t", none, 5, none, none, none⟩], 96, 100, fun _ => none, 1,
          some "disk full", false, Except.ok 0⟩
        (some ⟨⟨7, none, none, none⟩, "test", true⟩) 7 false initialCounts
        ⟨[], []⟩).jobRun.status = "success" ∧
    (run_search_job (some ⟨true, some 3, some "t", some "c", none, none⟩)
        (fun _ => Except.ok true) ⟨0, [], []⟩
        ⟨Except.ok [⟨"v1", "t", none, 5, none, none, none⟩], 96, 100, fun _ => none, 1,
          some "disk full", false, Except.ok 0⟩
        (some ⟨⟨7, none, none, none⟩, "test", true⟩) 7 false initialCounts
        ⟨[], []⟩).counts 7 = some 0 ∧
    (run_search_job (some ⟨true, some 3, some "t", some "c", none, none⟩)
        (fun _ => Except.ok true) ⟨0, [], []⟩
        ⟨Except.ok [⟨"v1", "t", none, 5, none, none, none⟩], 96, 100, fun _ => none, 1,
          some "disk full", false, Except.ok 0⟩
        (some ⟨⟨7, none, none, none⟩, "test", true⟩) 7 false initialCounts
        ⟨[], []⟩).scrapeLog = some (failedScrapeLog "disk full") := by
  refine ⟨rfl, rfl, rfl, rfl, ?_, ?_, ?_⟩ <;> decide


end VG
